import Mathlib

/-!
Verification of the framed SSL transport (`ssl.cc`).

The development shallowly embeds the functions of `ssl.cc`
(`ssl_load_cert_bufs`, `ssl_transport::init`, `ssl_transport::send`,
`ssl_transport::recv`, `ssl_transport::close`).  External collaborators
(the OpenSSL engine, the raw TCP stream primitive) are modelled as
oracles/environments: each call they serve is one oracle value, so a
theorem quantifying over the oracle quantifies over every behaviour the
collaborator may exhibit.  Machine ints are modelled as `Int`; none of
the embedded code performs wrapping arithmetic.
-/

namespace RevShell

/-- Outcome the session offers to one `SSL_read` call.  `ok bs` means the
call succeeded and delivered the bytes `bs` (the return value is the
number of bytes delivered, after truncation to the requested size);
`err n` means the call returned the negative value `-(n+1)`. -/
inductive ReadRes where
  | ok (bs : List Nat)
  | err (n : Nat)
deriving DecidableEq, Repr

/-- Return value of one `SSL_read` call that requested `req` bytes. -/
def readRet (req : Nat) : ReadRes → Int
  | .ok bs => ((bs.take req).length : Int)
  | .err n => -((n : Int) + 1)

/-- Writing delivered bytes at the front of a buffer, as `SSL_read`
does with the destination region: the delivered bytes replace the front
of the buffer, the rest is untouched. -/
def overwrite (buf new : List Nat) : List Nat :=
  new ++ buf.drop new.length

/-- Contents of the destination buffer after one `SSL_read` call that
requested `req` bytes: on success the delivered bytes (truncated to the
request) land at the front; on error the buffer is untouched. -/
def readData (req : Nat) (buf : List Nat) : ReadRes → List Nat
  | .ok bs => overwrite buf (bs.take req)
  | .err _ => buf

/-- Modelled from the spec: the message buffer of `core.h` (not under
`src/`): a fixed-size header region and a variable body region, both raw
bytes. -/
structure message where
  header : List Nat
  body : List Nat
deriving DecidableEq, Repr

/-- Modelled from the spec: `message::resize (n)` from `core.h` (not
under `src/`) sets the body region to exactly `n` bytes, keeping the
existing front of the buffer. -/
def resize (buf : List Nat) (n : Nat) : List Nat :=
  buf.take n ++ List.replicate (n - buf.length) 0

/-- Modelled from the spec: the return value of `ssl_transport::recv`.
The sentinels `TPT_CLOSE` / `TPT_EMPTY` of `core.h` (not under `src/`)
are modelled as the distinct constructors `closed` / `empty`; `bytes v`
is the raw return of the body `SSL_read` passed through by `recv`. -/
inductive RecvRet where
  | closed
  | empty
  | bytes (v : Int)
deriving DecidableEq, Repr

/-- Observable outcome of one `ssl_transport::recv` call: its return
value, the final message buffer, and the trace of the byte counts it
requested from `SSL_read`, in call order. -/
structure RecvOut where
  ret : RecvRet
  msg : message
  requests : List Nat
deriving DecidableEq, Repr

/-- Shallow embedding of `ssl_transport::recv` (ssl.cc 251-265).
`hl` is the fixed constant `msg.header_len`; `blo` is
`message::body_len ()` as a function of the header bytes (the header is
self-describing, so the body length is a pure function of it; the exact
decoding lives in `core.h`, not under `src/`, and is kept abstract);
`r1`, `r2` are the outcomes the session gives the two `SSL_read` calls.
The code reads `header_len` bytes into `msg.data ()`, returns
`TPT_CLOSE` on 0, `TPT_EMPTY` on a negative, otherwise resizes the body
to `msg.body_len ()` and reads that many bytes into `msg.body ()`,
returning that read's result. -/
def ssl_recv (hl : Nat) (blo : List Nat → Nat) (r1 r2 : ReadRes)
    (msg : message) : RecvOut :=
  let bytes := readRet hl r1
  let msg1 : message := ⟨readData hl msg.header r1, msg.body⟩
  if bytes = 0 then ⟨RecvRet.closed, msg1, [hl]⟩
  else if bytes < 0 then ⟨RecvRet.empty, msg1, [hl]⟩
  else
    let bl := blo msg1.header
    let body1 := resize msg1.body bl
    ⟨RecvRet.bytes (readRet bl r2), ⟨msg1.header, readData bl body1 r2⟩,
      [hl, bl]⟩

/-- Shallow embedding of the loop of `ssl_transport::send`
(ssl.cc 232-245).  `oracle` lists the successive return values of
`SSL_write`; the loop runs while `bytes_sent < len`, aborts with `-1`
when a write returns exactly `-1`, and otherwise adds the write's return
to `bytes_sent`.  `none` means the oracle was exhausted with the loop
still running (the modelled run is cut short). -/
def send_loop : List Int → Int → Int → Option Int
  | [], len, bytes_sent =>
      if bytes_sent < len then none else some bytes_sent
  | b :: rest, len, bytes_sent =>
      if bytes_sent < len then
        if b = -1 then some (-1) else send_loop rest len (bytes_sent + b)
      else some bytes_sent

/-- `ssl_transport::send` on a message whose `data_len ()` is
`data_len`: the loop starts with `bytes_sent = 0`. -/
def ssl_send (oracle : List Int) (data_len : Int) : Option Int :=
  send_loop oracle data_len 0

/-- A schedule of successful writes that covers a remaining length:
every write delivers at least one byte and at most what the loop would
request at that point, and the schedule as a whole covers the remaining
length.  This is the hypothesis of the send-termination claim. -/
def writes_fit : List Int → Int → Bool
  | [], rem => decide (rem ≤ 0)
  | b :: rest, rem =>
      if rem ≤ 0 then true
      else decide (1 ≤ b) && decide (b ≤ rem) && writes_fit rest (rem - b)

/-- Modelled from the spec: the transport-type constant for the
connection-initiating role, from `core.h` (not under `src/`).  Only its
distinctness from `TPT_SERVER` is relevant. -/
def TPT_CLIENT : Int := 0

/-- Modelled from the spec: the transport-type constant for the
connection-accepting role, from `core.h` (not under `src/`). -/
def TPT_SERVER : Int := 1

/-- Observable actions of `ssl_transport::init` on its collaborators:
the TCP stream primitive calls (`m_tcp.connect`, `m_tcp.bind`,
`m_tcp.accept`), the two handshake directions (`SSL_connect`,
`SSL_accept`) and the blocking-mode switch
`sock_set_blocking (sock, false)`. -/
inductive Ev where
  | connect
  | bind
  | accept
  | hs_connect
  | hs_accept
  | set_nonblocking
deriving DecidableEq, Repr

/-- Environment of one `ssl_transport::init` run: the outcome each
collaborator call would give if made.  `ctx_ok` is `SSL_CTX_new`
succeeding, `certs_ok` is `ssl_load_cert_bufs` returning `0`, `ssl_ok`
is `SSL_new` succeeding; the `Int` fields are the raw return values of
`m_tcp.connect`, `m_tcp.bind`, `m_tcp.accept`, `SSL_connect` and
`SSL_accept` (negative means failure, as the code tests). -/
structure InitEnv where
  ctx_ok : Bool
  certs_ok : Bool
  ssl_ok : Bool
  connect_res : Int
  bind_res : Int
  accept_res : Int
  ssl_connect_res : Int
  ssl_accept_res : Int
deriving DecidableEq, Repr

/-- Shallow embedding of `ssl_transport::init` (ssl.cc 131-221).
Returns the `int` result (`0` success, `-1` failure) and the trace of
collaborator actions performed, in order.  The source tests the
transport type twice (method selection, then connection dispatch) with
identical outcomes; the embedding folds the two identical tests into
the guards shown.  `sock_set_blocking (sock, false)` is reached only
after the role's handshake call has returned a non-negative value. -/
def ssl_init (type : Int) (env : InitEnv) : Int × List Ev :=
  if type = TPT_CLIENT ∨ type = TPT_SERVER then
    if env.ctx_ok = false then (-1, [])
    else if env.certs_ok = false then (-1, [])
    else if env.ssl_ok = false then (-1, [])
    else if type = TPT_CLIENT then
      if env.connect_res < 0 then (-1, [Ev.connect])
      else if env.ssl_connect_res < 0 then (-1, [Ev.connect, Ev.hs_connect])
      else (0, [Ev.connect, Ev.hs_connect, Ev.set_nonblocking])
    else
      if env.bind_res < 0 then (-1, [Ev.bind])
      else if env.accept_res < 0 then (-1, [Ev.bind, Ev.accept])
      else if env.ssl_accept_res < 0 then
        (-1, [Ev.bind, Ev.accept, Ev.hs_accept])
      else (0, [Ev.bind, Ev.accept, Ev.hs_accept, Ev.set_nonblocking])
  else (-1, [])

/-- State of the `ssl_transport` resources at teardown time: whether
`m_ssl` and `m_ctx` are non-NULL. -/
structure TransportSt where
  m_ssl : Bool
  m_ctx : Bool
deriving DecidableEq, Repr

/-- Observable actions of `ssl_transport::close`: `SSL_shutdown`,
`SSL_free`, `SSL_CTX_free` and the delegated `m_tcp.close ()`. -/
inductive CloseEv where
  | ssl_shutdown
  | ssl_free
  | ctx_free
  | tcp_close
deriving DecidableEq, Repr

/-- Shallow embedding of `ssl_transport::close` (ssl.cc 280-295): shut
down and free the session if present and NULL the pointer, free the
context if present and NULL the pointer, then always close the TCP
stream.  Returns the new state and the trace of actions, in order. -/
def ssl_close (st : TransportSt) : TransportSt × List CloseEv :=
  let sslPart : Bool × List CloseEv :=
    if st.m_ssl then (false, [CloseEv.ssl_shutdown, CloseEv.ssl_free])
    else (st.m_ssl, [])
  let ctxPart : Bool × List CloseEv :=
    if st.m_ctx then (false, [CloseEv.ctx_free]) else (st.m_ctx, [])
  (⟨sslPart.1, ctxPart.1⟩, sslPart.2 ++ ctxPart.2 ++ [CloseEv.tcp_close])

/-- One `BIO_new_mem_buf (buf, -1)`: with length `-1` OpenSSL measures
the buffer with `strlen`, so only the bytes before the first NUL byte
are visible through the BIO. -/
def mem_bio (buf : List Nat) : List Nat :=
  buf.takeWhile (fun b => b ≠ 0)

/-- Behaviour of the OpenSSL engine during `ssl_load_cert_bufs`, over
an abstract context-state type `α`: the two PEM readers (as functions
of the bytes visible through the BIO, yielding an optional parsed
object id), the two installers (returning the `int` result and the
mutated context), and the key/certificate consistency check. -/
structure CryptoEnv (α : Type) where
  read_X509 : List Nat → Option Nat
  read_RSAPrivateKey : List Nat → Option Nat
  use_certificate : α → Option Nat → Int × α
  use_RSAPrivateKey : α → Option Nat → Int × α
  check_private_key : α → Bool

/-- Shallow embedding of `ssl_load_cert_bufs` (ssl.cc 31-58).  Note the
two `BIO_new_mem_buf` calls in the source pass length `-1`, so
`crt_len` and `key_len` are received but never read, and each buffer is
consumed only up to its first NUL byte. -/
def ssl_load_cert_bufs {α : Type} (env : CryptoEnv α) (ctx : α)
    (crt_buf : List Nat) (crt_len : Int)
    (key_buf : List Nat) (key_len : Int) : Int × α :=
  let cert := env.read_X509 (mem_bio crt_buf)
  let key := env.read_RSAPrivateKey (mem_bio key_buf)
  let r1 := env.use_certificate ctx cert
  if r1.1 ≤ 0 then (-1, r1.2)
  else
    let r2 := env.use_RSAPrivateKey r1.2 key
    if r2.1 ≤ 0 then (-1, r2.2)
    else if env.check_private_key r2.2 = false then (-1, r2.2)
    else (0, r2.2)

/-! ### Theorems -/

/-- Helper: a schedule of successful in-bound writes drives the send
loop from any accumulated count up to exactly the full length. -/
theorem send_loop_fit (oracle : List Int) :
    ∀ (len s : Int), s ≤ len → writes_fit oracle (len - s) = true →
      send_loop oracle len s = some len := by
  induction oracle with
  | nil =>
    intro len s hs hfit
    simp only [writes_fit, decide_eq_true_eq] at hfit
    have hsl : s = len := by omega
    subst hsl
    simp [send_loop]
  | cons b rest ih =>
    intro len s hs hfit
    by_cases hrem : len - s ≤ 0
    · have hsl : s = len := by omega
      subst hsl
      simp [send_loop]
    · simp only [writes_fit, if_neg hrem, Bool.and_eq_true,
        decide_eq_true_eq] at hfit
      obtain ⟨⟨hb1, hb2⟩, hfit2⟩ := hfit
      have hslt : s < len := by omega
      have hbne : ¬ b = -1 := by omega
      simp only [send_loop, if_pos hslt, if_neg hbne]
      have heq : len - (s + b) = len - s - b := by ring
      exact ih len (s + b) (by omega) (by rw [heq]; exact hfit2)

/-- C2: for every message length and every schedule of successful
writes (each delivering at least one byte and at most the remaining
request, and jointly covering the length), `ssl_transport::send` keeps
issuing writes, accumulating the transferred bytes, until the total
equals the full serialized length, and returns that full length. -/
theorem send_loops_until_complete (oracle : List Int) (data_len : Int)
    (h0 : 0 ≤ data_len) (hfit : writes_fit oracle data_len = true) :
    ssl_send oracle data_len = some data_len := by
  have h := send_loop_fit oracle data_len 0 h0 (by simpa using hfit)
  simpa [ssl_send] using h

/-- Witness for C2: three writes of 2, 2 and 3 bytes complete a 7-byte
message and send reports 7. -/
theorem send_loops_until_complete_witness :
    ssl_send [2, 2, 3] 7 = some 7 :=
  send_loops_until_complete [2, 2, 3] 7 (by decide) (by decide)

/-- C5 counterexample: an `SSL_write` returning the negative value `-2`
does not abort `ssl_transport::send`: with data length 1 and write
returns `-2` then `3`, send returns `some 1` (success), not the error
`-1`.  The source only tests `bytes == -1`, so `-2` is added to the
byte accumulator. -/
theorem send_negative_not_aborted_cex :
    (-2 : Int) < 0 ∧ ssl_send [-2, 3] 1 = some 1 ∧
      ssl_send [-2, 3] 1 ≠ some (-1) := by
  refine ⟨by decide, by decide, by decide⟩

/-- C5 amended: a write call returning exactly `-1` is treated as a
hard error: the send loop aborts immediately (no later oracle entry is
consumed) and reports `-1`, from any point of the loop where writing is
still due. -/
theorem send_minus_one_aborts (rest : List Int) (len s : Int)
    (h : s < len) : send_loop (-1 :: rest) len s = some (-1) := by
  simp [send_loop, if_pos h]

/-- Witness for C5's amended claim: with 1 byte still to send, a `-1`
write return makes send report `-1` at once. -/
theorem send_minus_one_aborts_witness :
    send_loop [-1, 5] 1 0 = some (-1) :=
  send_minus_one_aborts [5] 1 0 (by decide)

/-- Helper: `resize` yields a body of exactly the requested length. -/
theorem length_resize (b : List Nat) (n : Nat) :
    (resize b n).length = n := by
  simp [resize]
  omega

/-- Helper: a read requesting exactly the buffer's length leaves the
buffer's length unchanged. -/
theorem length_readData (n : Nat) (buf : List Nat) (r : ReadRes)
    (hbuf : buf.length = n) : (readData n buf r).length = n := by
  cases r with
  | ok bs =>
    simp [readData, overwrite]
    omega
  | err m => simpa [readData] using hbuf

/-- C3: if the header `SSL_read` returns 0 bytes, `recv` returns the
`TPT_CLOSE` outcome; if it returns a negative value, `recv` returns the
`TPT_EMPTY` (try again later) outcome, not a fatal error. -/
theorem recv_header_outcomes (hl : Nat) (blo : List Nat → Nat)
    (r1 r2 : ReadRes) (msg : message) :
    (readRet hl r1 = 0 → (ssl_recv hl blo r1 r2 msg).ret = RecvRet.closed) ∧
    (readRet hl r1 < 0 → (ssl_recv hl blo r1 r2 msg).ret = RecvRet.empty) := by
  constructor
  · intro h
    simp [ssl_recv, h]
  · intro h
    have h0 : ¬ readRet hl r1 = 0 := by omega
    simp [ssl_recv, h0, h]

/-- Witness for C3: a header read delivering 0 bytes yields `closed`; a
header read returning `-1` yields `empty`. -/
theorem recv_header_outcomes_witness :
    (ssl_recv 4 (fun h => h.headD 0) (ReadRes.ok []) (ReadRes.ok [])
        ⟨[0, 0, 0, 0], []⟩).ret = RecvRet.closed ∧
    (ssl_recv 4 (fun h => h.headD 0) (ReadRes.err 0) (ReadRes.ok [])
        ⟨[0, 0, 0, 0], []⟩).ret = RecvRet.empty :=
  ⟨(recv_header_outcomes 4 (fun h => h.headD 0) (ReadRes.ok [])
      (ReadRes.ok []) ⟨[0, 0, 0, 0], []⟩).1 (by decide),
   (recv_header_outcomes 4 (fun h => h.headD 0) (ReadRes.err 0)
      (ReadRes.ok []) ⟨[0, 0, 0, 0], []⟩).2 (by decide)⟩

/-- C1: after a successful header read, the body read is issued for
exactly the body length derived from the (updated) header, the final
body buffer has exactly that length whatever size the pre-existing body
buffer had, and neither the request trace nor the return value depends
on the pre-existing body buffer. -/
theorem recv_resizes_to_header_length (hl : Nat) (blo : List Nat → Nat)
    (r1 r2 : ReadRes) (h b b2 : List Nat) (hpos : 0 < readRet hl r1) :
    (ssl_recv hl blo r1 r2 ⟨h, b⟩).requests =
        [hl, blo (readData hl h r1)] ∧
    (ssl_recv hl blo r1 r2 ⟨h, b⟩).msg.body.length =
        blo (readData hl h r1) ∧
    (ssl_recv hl blo r1 r2 ⟨h, b2⟩).requests =
        (ssl_recv hl blo r1 r2 ⟨h, b⟩).requests ∧
    (ssl_recv hl blo r1 r2 ⟨h, b2⟩).ret =
        (ssl_recv hl blo r1 r2 ⟨h, b⟩).ret := by
  have h0 : ¬ readRet hl r1 = 0 := by omega
  have h1 : ¬ readRet hl r1 < 0 := by omega
  refine ⟨?_, ?_, ?_, ?_⟩ <;>
    simp [ssl_recv, h0, h1, length_readData _ _ _ (length_resize _ _)]

/-- Witness for C1: header read delivers `[3,5,5,5]` (body length 3 by
the first header byte); the stale 2-byte body buffer is resized to 3,
the body read requests 3 bytes, and an empty initial buffer gives the
same trace and return. -/
theorem recv_resizes_to_header_length_witness :
    (ssl_recv 4 (fun h => h.headD 0) (ReadRes.ok [3, 5, 5, 5])
        (ReadRes.ok [1, 2]) ⟨[0, 0, 0, 0], [9, 9]⟩).requests =
      [4, (fun h => h.headD 0) (readData 4 [0, 0, 0, 0]
        (ReadRes.ok [3, 5, 5, 5]))] ∧
    (ssl_recv 4 (fun h => h.headD 0) (ReadRes.ok [3, 5, 5, 5])
        (ReadRes.ok [1, 2]) ⟨[0, 0, 0, 0], [9, 9]⟩).msg.body.length =
      (fun h => h.headD 0) (readData 4 [0, 0, 0, 0]
        (ReadRes.ok [3, 5, 5, 5])) ∧
    (ssl_recv 4 (fun h => h.headD 0) (ReadRes.ok [3, 5, 5, 5])
        (ReadRes.ok [1, 2]) ⟨[0, 0, 0, 0], []⟩).requests =
      (ssl_recv 4 (fun h => h.headD 0) (ReadRes.ok [3, 5, 5, 5])
        (ReadRes.ok [1, 2]) ⟨[0, 0, 0, 0], [9, 9]⟩).requests ∧
    (ssl_recv 4 (fun h => h.headD 0) (ReadRes.ok [3, 5, 5, 5])
        (ReadRes.ok [1, 2]) ⟨[0, 0, 0, 0], []⟩).ret =
      (ssl_recv 4 (fun h => h.headD 0) (ReadRes.ok [3, 5, 5, 5])
        (ReadRes.ok [1, 2]) ⟨[0, 0, 0, 0], [9, 9]⟩).ret :=
  recv_resizes_to_header_length 4 (fun h => h.headD 0)
    (ReadRes.ok [3, 5, 5, 5]) (ReadRes.ok [1, 2]) [0, 0, 0, 0]
    [9, 9] [] (by decide)

/-- C4 counterexample: with `header_len = 4`, a header read that
delivers only 2 bytes (return value 2, not 4) does not stop `recv`: the
body length is derived from the partially updated header and the body
phase proceeds, returning `bytes 1`.  So `recv` does not read exactly
`headerLen` bytes before deriving the body length. -/
theorem recv_short_header_cex :
    readRet 4 (ReadRes.ok [1, 2]) = 2 ∧ (2 : Int) ≠ 4 ∧
    (ssl_recv 4 (fun h => h.headD 0) (ReadRes.ok [1, 2])
        (ReadRes.ok [7, 7, 7]) ⟨[9, 9, 9, 9], []⟩).ret =
      RecvRet.bytes 1 ∧
    (ssl_recv 4 (fun h => h.headD 0) (ReadRes.ok [1, 2])
        (ReadRes.ok [7, 7, 7]) ⟨[9, 9, 9, 9], []⟩).requests = [4, 1] := by
  refine ⟨by decide, by decide, by decide, by decide⟩

/-- C4 amended: `recv` issues a single read requesting exactly
`headerLen` bytes into the header region; whenever that read's return
is positive (even when fewer than `headerLen` bytes were obtained), it
derives the body length from the header, issues a single read
requesting exactly that many bytes into the resized buffer, and returns
that read's raw result. -/
theorem recv_requests_exact_lengths (hl : Nat) (blo : List Nat → Nat)
    (r1 r2 : ReadRes) (h b : List Nat) (hpos : 0 < readRet hl r1) :
    (ssl_recv hl blo r1 r2 ⟨h, b⟩).requests =
        [hl, blo (readData hl h r1)] ∧
    (ssl_recv hl blo r1 r2 ⟨h, b⟩).ret =
        RecvRet.bytes (readRet (blo (readData hl h r1)) r2) := by
  have h0 : ¬ readRet hl r1 = 0 := by omega
  have h1 : ¬ readRet hl r1 < 0 := by omega
  constructor <;> simp [ssl_recv, h0, h1]

/-- Witness for C4's amended claim: a full 4-byte header read leads to
requests `[4, 3]` and the return is the body read's byte count. -/
theorem recv_requests_exact_lengths_witness :
    (ssl_recv 4 (fun h => h.headD 0) (ReadRes.ok [3, 5, 5, 5])
        (ReadRes.ok [1, 2]) ⟨[0, 0, 0, 0], [9, 9]⟩).requests =
      [4, (fun h => h.headD 0) (readData 4 [0, 0, 0, 0]
        (ReadRes.ok [3, 5, 5, 5]))] ∧
    (ssl_recv 4 (fun h => h.headD 0) (ReadRes.ok [3, 5, 5, 5])
        (ReadRes.ok [1, 2]) ⟨[0, 0, 0, 0], [9, 9]⟩).ret =
      RecvRet.bytes (readRet ((fun h => h.headD 0)
        (readData 4 [0, 0, 0, 0] (ReadRes.ok [3, 5, 5, 5])))
        (ReadRes.ok [1, 2])) :=
  recv_requests_exact_lengths 4 (fun h => h.headD 0)
    (ReadRes.ok [3, 5, 5, 5]) (ReadRes.ok [1, 2]) [0, 0, 0, 0]
    [9, 9] (by decide)

/-- C6: whichever role is taken, if the step the role performs fails —
connect or the connect-side handshake for the client; bind, accept or
the accept-side handshake for the server — then `init` returns `-1`
and the established-session actions are never reached (the
non-blocking switch that marks establishment is not in the trace). -/
theorem init_step_failure_aborts (env : InitEnv) :
    ((env.connect_res < 0 ∨ env.ssl_connect_res < 0) →
      (ssl_init TPT_CLIENT env).1 = -1 ∧
        Ev.set_nonblocking ∉ (ssl_init TPT_CLIENT env).2) ∧
    ((env.bind_res < 0 ∨ env.accept_res < 0 ∨ env.ssl_accept_res < 0) →
      (ssl_init TPT_SERVER env).1 = -1 ∧
        Ev.set_nonblocking ∉ (ssl_init TPT_SERVER env).2) := by
  constructor
  · intro h
    simp only [ssl_init, TPT_CLIENT, TPT_SERVER]
    split_ifs <;> simp_all
  · intro h
    simp only [ssl_init, TPT_CLIENT, TPT_SERVER]
    split_ifs <;> simp_all

/-- Witness for C6: a failing connect makes client init return `-1`
with no non-blocking switch; a failing accept does the same for the
server. -/
theorem init_step_failure_aborts_witness :
    ((ssl_init TPT_CLIENT ⟨true, true, true, -1, 0, 0, 0, 0⟩).1 = -1 ∧
      Ev.set_nonblocking ∉
        (ssl_init TPT_CLIENT ⟨true, true, true, -1, 0, 0, 0, 0⟩).2) ∧
    ((ssl_init TPT_SERVER ⟨true, true, true, 0, 0, -3, 0, 0⟩).1 = -1 ∧
      Ev.set_nonblocking ∉
        (ssl_init TPT_SERVER ⟨true, true, true, 0, 0, -3, 0, 0⟩).2) :=
  ⟨(init_step_failure_aborts ⟨true, true, true, -1, 0, 0, 0, 0⟩).1
      (Or.inl (by decide)),
   (init_step_failure_aborts ⟨true, true, true, 0, 0, -3, 0, 0⟩).2
      (Or.inr (Or.inl (by decide)))⟩

/-- C7: the switch to non-blocking mode happens only on the success
path — if it is in the trace at all then `init` returned 0 — and on
every success trace it is the last action, strictly after the
handshake action of the taken role; no failure path and no point
before the handshake ever performs it. -/
theorem init_nonblocking_only_after_handshake (type : Int)
    (env : InitEnv) :
    ((ssl_init type env).1 = 0 →
      (ssl_init type env).2 =
          [Ev.connect, Ev.hs_connect, Ev.set_nonblocking] ∨
        (ssl_init type env).2 =
          [Ev.bind, Ev.accept, Ev.hs_accept, Ev.set_nonblocking]) ∧
    (Ev.set_nonblocking ∈ (ssl_init type env).2 →
      (ssl_init type env).1 = 0) := by
  unfold ssl_init
  split_ifs <;> constructor <;> intro h <;> simp_all

/-- Witness for C7: a fully successful client init ends with the
non-blocking switch right after the connect-side handshake. -/
theorem init_nonblocking_only_after_handshake_witness :
    (ssl_init TPT_CLIENT ⟨true, true, true, 3, 0, 0, 0, 0⟩).2 =
        [Ev.connect, Ev.hs_connect, Ev.set_nonblocking] ∨
      (ssl_init TPT_CLIENT ⟨true, true, true, 3, 0, 0, 0, 0⟩).2 =
        [Ev.bind, Ev.accept, Ev.hs_accept, Ev.set_nonblocking] :=
  (init_nonblocking_only_after_handshake TPT_CLIENT
    ⟨true, true, true, 3, 0, 0, 0, 0⟩).1 (by decide)

/-- C8: the client role performs stream connect then the connect-side
handshake; the server role performs stream bind, accept, then the
accept-side handshake; any other type value makes `init` fail with no
action performed — in particular neither handshake. -/
theorem init_role_dispatch (env : InitEnv) :
    (env.ctx_ok = true → env.certs_ok = true → env.ssl_ok = true →
      0 ≤ env.connect_res → 0 ≤ env.ssl_connect_res →
      ssl_init TPT_CLIENT env =
        (0, [Ev.connect, Ev.hs_connect, Ev.set_nonblocking])) ∧
    (env.ctx_ok = true → env.certs_ok = true → env.ssl_ok = true →
      0 ≤ env.bind_res → 0 ≤ env.accept_res → 0 ≤ env.ssl_accept_res →
      ssl_init TPT_SERVER env =
        (0, [Ev.bind, Ev.accept, Ev.hs_accept, Ev.set_nonblocking])) ∧
    (∀ t : Int, t ≠ TPT_CLIENT → t ≠ TPT_SERVER →
      ssl_init t env = (-1, [])) := by
  refine ⟨?_, ?_, ?_⟩
  · intro h1 h2 h3 h4 h5
    simp [ssl_init, TPT_CLIENT, TPT_SERVER, h1, h2, h3,
      show ¬ env.connect_res < 0 by omega,
      show ¬ env.ssl_connect_res < 0 by omega]
  · intro h1 h2 h3 h4 h5 h6
    simp [ssl_init, TPT_CLIENT, TPT_SERVER, h1, h2, h3,
      show ¬ env.bind_res < 0 by omega,
      show ¬ env.accept_res < 0 by omega,
      show ¬ env.ssl_accept_res < 0 by omega]
  · intro t ht1 ht2
    simp [ssl_init, ht1, ht2]

/-- Witness for C8: a successful-environment client run gives exactly
the connect-side trace, and the invalid type `2` fails with an empty
trace. -/
theorem init_role_dispatch_witness :
    ssl_init TPT_CLIENT ⟨true, true, true, 3, 0, 0, 0, 0⟩ =
        (0, [Ev.connect, Ev.hs_connect, Ev.set_nonblocking]) ∧
      ssl_init 2 ⟨true, true, true, 3, 0, 0, 0, 0⟩ = (-1, []) :=
  ⟨(init_role_dispatch ⟨true, true, true, 3, 0, 0, 0, 0⟩).1 rfl rfl rfl
      (by decide) (by decide),
   (init_role_dispatch ⟨true, true, true, 3, 0, 0, 0, 0⟩).2.2 2
      (by decide) (by decide)⟩

/-- C9: from any resource state, `close` clears both the session and
the context reference, releases whichever of them exists (shutdown
notification before freeing the session), always closes the underlying
stream last, and a second call from the resulting state releases
nothing again — it only delegates to the stream's own idempotent
close — and reaches the same cleared state. -/
theorem close_idempotent (st : TransportSt) :
    (ssl_close st).1 = ⟨false, false⟩ ∧
    (st.m_ssl = true → CloseEv.ssl_shutdown ∈ (ssl_close st).2 ∧
      CloseEv.ssl_free ∈ (ssl_close st).2) ∧
    (st.m_ctx = true → CloseEv.ctx_free ∈ (ssl_close st).2) ∧
    ((ssl_close st).2).getLast? = some CloseEv.tcp_close ∧
    ssl_close (ssl_close st).1 = (⟨false, false⟩, [CloseEv.tcp_close]) := by
  obtain ⟨s, c⟩ := st
  cases s <;> cases c <;> refine ⟨?_, ?_, ?_, ?_, ?_⟩ <;> decide

/-- Witness for C9: closing a transport holding both a session and a
context performs the shutdown/free actions, and closing again only
closes the stream. -/
theorem close_idempotent_witness :
    (CloseEv.ssl_shutdown ∈ (ssl_close ⟨true, true⟩).2 ∧
      CloseEv.ssl_free ∈ (ssl_close ⟨true, true⟩).2) ∧
    CloseEv.ctx_free ∈ (ssl_close ⟨true, true⟩).2 :=
  ⟨(close_idempotent ⟨true, true⟩).2.1 rfl,
   (close_idempotent ⟨true, true⟩).2.2.1 rfl⟩

/-- Helper: the NUL-terminated view of a buffer is a fixed point of the
NUL-terminated view. -/
theorem mem_bio_idem (l : List Nat) : mem_bio (mem_bio l) = mem_bio l := by
  induction l with
  | nil => rfl
  | cons a t ih =>
    by_cases h : a = 0
    · simp [mem_bio, List.takeWhile_cons, h]
    · simpa [mem_bio, List.takeWhile_cons, h] using ih

/-- C10: the result of `ssl_load_cert_bufs` — return value and final
context state — does not depend on `crt_len` and `key_len` (both
`BIO_new_mem_buf` calls pass `-1`, so the lengths are never read), and
only the portions of the buffers before their first NUL byte matter. -/
theorem load_cert_bufs_ignores_lengths (α : Type) (env : CryptoEnv α)
    (ctx : α) (cb kb : List Nat) (l1 l2 l1' l2' : Int) :
    ssl_load_cert_bufs env ctx cb l1 kb l2 =
        ssl_load_cert_bufs env ctx cb l1' kb l2' ∧
    ssl_load_cert_bufs env ctx cb l1 kb l2 =
        ssl_load_cert_bufs env ctx (mem_bio cb) l1 (mem_bio kb) l2 := by
  refine ⟨rfl, ?_⟩
  simp [ssl_load_cert_bufs, mem_bio_idem]

end RevShell
